import Mathlib

/-
Verification of the TradeHunter market-analysis toolkit
(src/tools/data-analysis/market-analysis.py) against its
natural-language specification.

The Python code operates on pandas Series / numpy arrays of floating
point numbers.  We shallowly embed the numeric computations over exact
arithmetic: quantities that stay rational (sums, means, covariances,
variances, percentage changes, the OBV recursion) are embedded over ℚ;
quantities that involve a square root (standard deviations, Pearson
correlation coefficients) are embedded over ℝ with Real.sqrt.
NaN-producing operations (pandas std of fewer than two observations,
pandas corr with a zero-variance argument) are embedded with Option /
a small value type carrying explicit `nan` and `inf` constructors,
mirroring the IEEE comparisons the code performs on them
(any comparison against NaN is false).
-/

namespace TradeHunter

/-! ### Rational statistics toolkit

`np.cov(x, y)[0, 1]` normalises by `N - 1` (sample covariance,
numpy default `bias=False`), while `np.var(x)` normalises by `N`
(population variance, numpy / pandas-delegated default `ddof=0`).
Both are embedded exactly. -/

/-- Arithmetic mean of a list (pandas `Series.mean`); 0 on the empty
list, which the code never hits on the paths verified here. -/
def qmean (xs : List ℚ) : ℚ := xs.sum / xs.length

/-- Sum of squared deviations from the mean. -/
def sumSqDev (xs : List ℚ) : ℚ :=
  ((xs.map (fun x => (x - qmean xs) ^ 2)).sum)

/-- Sum of products of deviations from the respective means. -/
def sumDevProd (xs ys : List ℚ) : ℚ :=
  ((List.zipWith (fun x y => (x - qmean xs) * (y - qmean ys)) xs ys).sum)

/-- Sample covariance, `np.cov(xs, ys)[0, 1]` (denominator `N - 1`). -/
def sampleCov (xs ys : List ℚ) : ℚ := sumDevProd xs ys / (xs.length - 1 : ℚ)

/-- Population variance, `np.var(xs)` (denominator `N`). -/
def popVar (xs : List ℚ) : ℚ := sumSqDev xs / (xs.length : ℚ)

/-- `Series.pct_change().dropna()`: one entry per consecutive pair,
`(p[i] - p[i-1]) / p[i-1]`, the leading NaN dropped. -/
def pctChange (ps : List ℚ) : List ℚ :=
  List.zipWith (fun a b => (b - a) / a) ps (ps.drop 1)

/-! ### `_calculate_obv` (lines 469-482)

```
obv = np.zeros(len(close)); obv[0] = volume.iloc[0]
for i in range(1, len(close)):
    if   close.iloc[i] > close.iloc[i-1]: obv[i] = obv[i-1] + volume.iloc[i]
    elif close.iloc[i] < close.iloc[i-1]: obv[i] = obv[i-1] - volume.iloc[i]
    else:                                 obv[i] = obv[i-1]
```
Embedded as a left-to-right recursion carrying the previous close and
the previous OBV value.  On an empty close series the Python code would
raise an IndexError at `obv[0]`; the embedding returns `[]` there, a
case outside every claim (all claims assume non-empty series). -/

/-- Loop body of `_calculate_obv`: `prevC`, `prevO` are the previous
close and previous OBV entry; `rows` pairs each remaining close with
its volume. -/
def obvAux (prevC prevO : ℚ) : List (ℚ × ℚ) → List ℚ
  | [] => []
  | (c, v) :: rest =>
      let o : ℚ := if prevC < c then prevO + v else if c < prevC then prevO - v else prevO
      o :: obvAux c o rest

/-- `_calculate_obv(close, volume)`. -/
def calculate_obv (close volume : List ℚ) : List ℚ :=
  match close, volume with
  | c :: cs, v :: vs => v :: obvAux c v (List.zip cs vs)
  | _, _ => []

/-! ### `calculate_beta_metrics` (lines 122-182), per-symbol core

```
covariance = np.cov(stock_returns, benchmark_returns)[0, 1]
market_variance = np.var(benchmark_returns)
beta = covariance / market_variance if market_variance != 0 else 0
mean_stock_return = stock_returns.mean() * 252
mean_market_return = benchmark_returns.mean() * 252
alpha = mean_stock_return - beta * mean_market_return
```
-/

/-- `beta` for one symbol: sample covariance (`np.cov`, denominator
`N-1`) over population variance (`np.var`, denominator `N`). -/
def beta (stock bench : List ℚ) : ℚ :=
  if popVar bench ≠ 0 then sampleCov stock bench / popVar bench else 0

/-- Jensen's alpha, annualised, for one symbol. -/
def alpha_annualized (stock bench : List ℚ) : ℚ :=
  qmean stock * 252 - beta stock bench * (qmean bench * 252)

/-! ### Upside / downside beta (lines 156-171)

```
up_market = benchmark_returns > 0
down_market = benchmark_returns < 0
upside_beta = 0; downside_beta = 0
if up_market.sum() > 10:
    upside_cov = np.cov(stock_returns[up_market], benchmark_returns[up_market])[0, 1]
    upside_var = np.var(benchmark_returns[up_market])
    upside_beta = upside_cov / upside_var if upside_var != 0 else 0
if down_market.sum() > 10: ... (symmetrically)
```
The boolean mask is computed on the benchmark and applied to both
series; embedded by zipping the two series and filtering the pairs on
the benchmark component. -/

/-- `stock_returns[mask]`: boolean-mask selection on a series (the
pandas indexing `series[mask]` used at lines 164-165 and 169-170). -/
def maskSelect (mask : List Bool) (xs : List ℚ) : List ℚ :=
  ((List.zip mask xs).filter (fun p => p.1)).map Prod.snd

/-- `up_market = benchmark_returns > 0`, the boolean mask. -/
def upMask (bench : List ℚ) : List Bool := bench.map (fun r => decide (0 < r))

/-- `down_market = benchmark_returns < 0`. -/
def downMask (bench : List ℚ) : List Bool := bench.map (fun r => decide (r < 0))

/-- `upside_beta`: 0 unless `up_market.sum() > 10` (strictly more than
10 up-market days); within the branch, `np.cov` over `np.var` of the
mask-selected series, 0 if the selected benchmark variance is 0. -/
def upside_beta (stock bench : List ℚ) : ℚ :=
  if 10 < (upMask bench).count true then
    (if popVar (maskSelect (upMask bench) bench) ≠ 0 then
      sampleCov (maskSelect (upMask bench) stock) (maskSelect (upMask bench) bench) /
        popVar (maskSelect (upMask bench) bench)
     else 0)
  else 0

/-- `downside_beta`, symmetrically on `down_market.sum() > 10`. -/
def downside_beta (stock bench : List ℚ) : ℚ :=
  if 10 < (downMask bench).count true then
    (if popVar (maskSelect (downMask bench) bench) ≠ 0 then
      sampleCov (maskSelect (downMask bench) stock) (maskSelect (downMask bench) bench) /
        popVar (maskSelect (downMask bench) bench)
     else 0)
  else 0

/-- The claim's formulation of the restriction: the pairs
`(stock_i, bench_i)` of days on which the benchmark return is
positive. -/
def upPairs (stock bench : List ℚ) : List (ℚ × ℚ) :=
  (List.zip stock bench).filter (fun p => 0 < p.2)

/-- The pairs of days on which the benchmark return is negative. -/
def downPairs (stock bench : List ℚ) : List (ℚ × ℚ) :=
  (List.zip stock bench).filter (fun p => p.2 < 0)

/-- Covariance over variance of a restricted pair list (the claim's
"covariance over variance restricted to qualifying days"), with the
code's 0 fallback on zero variance. -/
def restrictedBeta (pairs : List (ℚ × ℚ)) : ℚ :=
  if popVar (pairs.map Prod.snd) ≠ 0 then
    sampleCov (pairs.map Prod.fst) (pairs.map Prod.snd) / popVar (pairs.map Prod.snd)
  else 0

/-! ### `identify_regime_changes` (lines 236-268), per-symbol core

```
rolling_vol = returns.rolling(60).std()
vol_median = rolling_vol.median()
high_vol_regime = rolling_vol > vol_median * 1.5
regime_switches = []
previous_regime = False
for date, is_high_vol in high_vol_regime.items():
    if is_high_vol != previous_regime:
        regime_switches.append(date)
    previous_regime = is_high_vol
```
Dates are embedded as positions 0, 1, ... of the returns series.
`rolling(w)` leaves the first `w - 1` entries NaN; NaN compared against
the threshold is False.  The rolling aggregator (a sample standard
deviation, hence a square root) and the median of the rolling series
are kept as parameters `f` and `m`: the claim verified here is
insensitive to their numeric values, and this makes the statement hold
for the actual std / median instantiation as a special case. -/

/-- `returns.rolling(w).agg(f)` as an Option-valued series: entry `i`
is defined (`some`) exactly when a full window of `w` observations
ending at `i` exists, and then holds `f` of that window; earlier
entries are `none` (pandas NaN). -/
def rollingApply (w : Nat) (f : List ℚ → ℚ) (xs : List ℚ) : List (Option ℚ) :=
  (List.range xs.length).map (fun i =>
    if i + 1 < w then none else some (f ((xs.take (i + 1)).drop (i + 1 - w))))

/-- `high_vol_regime = rolling_vol > vol_median * 1.5` on an
Option-valued rolling series: NaN entries compare as False. -/
def highVolRegime (rollingVol : List (Option ℚ)) (m : ℚ) : List Bool :=
  rollingVol.map (fun o => match o with
    | none => false
    | some v => decide (m * 3 / 2 < v))

/-- The switch-collection loop: emits the position of every entry that
differs from its predecessor, the predecessor of the first entry being
the initial `previous_regime = False`. -/
def regimeSwitchLoop (prev : Bool) (k : Nat) : List Bool → List Nat
  | [] => []
  | b :: bs =>
      if b ≠ prev then k :: regimeSwitchLoop b (k + 1) bs
      else regimeSwitchLoop b (k + 1) bs

/-- `regime_switches` for one symbol, positions of emitted dates. -/
def regimeSwitches (ind : List Bool) : List Nat := regimeSwitchLoop false 0 ind

/-- The full per-symbol pipeline of `identify_regime_changes`, generic
in the rolling aggregator `f` (the sample std) and the scalar `m`
(the median of the rolling series). -/
def identify_regime_changes (f : List ℚ → ℚ) (m : ℚ) (returns : List ℚ) : List Nat :=
  regimeSwitches (highVolRegime (rollingApply 60 f returns) m)

/-! ### `_ljung_box_test` (lines 459-467) and the clustering flag
(lines 86-97)

```
try:
    from statsmodels.stats.diagnostic import acorr_ljungbox
    result = acorr_ljungbox(series, lags=lags, return_df=True)
    return result['lb_pvalue'].iloc[-1]
except ImportError:
    return 0.5
```
The statsmodels p-value is an external collaborator, embedded as a
function parameter `lb`; availability of the library as a Boolean. -/

/-- `_ljung_box_test(series)`: the library p-value when statsmodels is
importable, the constant 0.5 otherwise. -/
def ljung_box_test (available : Bool) (lb : List ℚ → ℚ) (series : List ℚ) : ℚ :=
  if available then lb series else 1 / 2

/-- `volatility_clustering` flag for one symbol:
`squared_returns = returns ** 2; arch_stat = self._ljung_box_test(squared_returns)`
and the stored metric is `arch_stat > 0.05`. -/
def volatility_clustering (available : Bool) (lb : List ℚ → ℚ) (returns : List ℚ) : Bool :=
  decide ((5 : ℚ) / 100 < ljung_box_test available lb (returns.map (fun r => r ^ 2)))

/-! ### Analyzer state (frame claim C8)

The class fields set in `__init__` and the two tables set by
`fetch_data` (lines 37-54):

```
self.data = data.dropna()
self.returns = self.data.pct_change().dropna()
```
The price grid is embedded as a list of date rows, each row a list of
per-symbol `Option ℚ` entries (None = missing value); `dropna()` keeps
the rows without missing entries.  Each public method is embedded by
its effect on the analyzer state; result values are modelled separately
by the pure functions above.  The only state write outside `__init__`
is `fetch_data`, reached from the metric methods through
`if self.returns is None: self.fetch_data()`; `analyze_volume_patterns`
performs its own per-symbol fetches and never touches the fields. -/

/-- `DataFrame.dropna()`: keep only the rows with every entry present. -/
def dropna (t : List (List (Option ℚ))) : List (List ℚ) :=
  t.filterMap (fun row => if row.all Option.isSome then some (row.filterMap id) else none)

/-- Row-wise `pct_change().dropna()` of a date × symbol grid. -/
def pctChangeTable (t : List (List ℚ)) : List (List ℚ) :=
  List.zipWith (fun prev cur => List.zipWith (fun a b => (b - a) / a) prev cur) t (t.drop 1)

/-- The `MarketAnalyzer` instance fields. -/
structure Analyzer where
  symbols : List String
  benchmark : String
  lookback_days : Nat
  data : Option (List (List ℚ))
  returns : Option (List (List ℚ))

/-- State effect of `fetch_data`: stores the cleaned grid and its
returns table; `env` is the grid the market-data provider returns. -/
def fetch_data (env : List (List (Option ℚ))) (s : Analyzer) : Analyzer :=
  { s with data := some (dropna env), returns := some (pctChangeTable (dropna env)) }

/-- The guard `if self.returns is None: self.fetch_data()` shared by the
metric methods. -/
def ensureData (env : List (List (Option ℚ))) (s : Analyzer) : Analyzer :=
  match s.returns with
  | none => fetch_data env s
  | some _ => s

/-- State effect of `calculate_volatility_metrics` (lines 56-100). -/
def volatilityMetricsState (env : List (List (Option ℚ))) (s : Analyzer) : Analyzer :=
  ensureData env s

/-- State effect of `calculate_correlation_matrix` (lines 102-120). -/
def correlationMatrixState (env : List (List (Option ℚ))) (s : Analyzer) : Analyzer :=
  ensureData env s

/-- State effect of `calculate_beta_metrics` (lines 122-182). -/
def betaMetricsState (env : List (List (Option ℚ))) (s : Analyzer) : Analyzer :=
  ensureData env s

/-- State effect of `analyze_volume_patterns` (lines 184-234): fetches
per-symbol histories on the side, reads no analyzer field but
`symbols`/`lookback_days`, writes none. -/
def volumePatternsState (s : Analyzer) : Analyzer := s

/-- State effect of `identify_regime_changes` (lines 236-268). -/
def regimeChangesState (env : List (List (Option ℚ))) (s : Analyzer) : Analyzer :=
  ensureData env s

/-- State effect of `generate_trading_insights` (lines 270-330): runs
the four metric methods in order. -/
def tradingInsightsState (env : List (List (Option ℚ))) (s : Analyzer) : Analyzer :=
  volumePatternsState (betaMetricsState env (correlationMatrixState env
    (volatilityMetricsState env s)))

/-- State effect of `create_strategy_recommendations` (lines 332-396):
runs volatility, beta, then correlation metrics. -/
def strategyRecommendationsState (env : List (List (Option ℚ))) (s : Analyzer) : Analyzer :=
  correlationMatrixState env (betaMetricsState env (volatilityMetricsState env s))

/-- State effect of `export_analysis_report` (lines 398-456): runs
volatility metrics, beta metrics, insights and recommendations. -/
def exportReportState (env : List (List (Option ℚ))) (s : Analyzer) : Analyzer :=
  strategyRecommendationsState env (tradingInsightsState env
    (betaMetricsState env (volatilityMetricsState env s)))

/-! ### Real-valued statistics toolkit

Standard deviations and Pearson correlation coefficients involve a
square root and are embedded over ℝ.  pandas `Series.corr` yields NaN
when either argument has zero variance (embedded as `Option ℝ` with
`none` for NaN); `scipy.stats.linregress` instead sets `r = 0` when its
denominator `sqrt(ssxm * ssym)` vanishes. -/

/-- Arithmetic mean over ℝ. -/
noncomputable def rmean (xs : List ℝ) : ℝ := xs.sum / xs.length

/-- Sum of squared deviations from the mean, over ℝ. -/
noncomputable def rSumSqDev (xs : List ℝ) : ℝ :=
  ((xs.map (fun x => (x - rmean xs) ^ 2)).sum)

/-- Sum of products of deviations from the respective means, over ℝ. -/
noncomputable def rSumDevProd (xs ys : List ℝ) : ℝ :=
  ((List.zipWith (fun x y => (x - rmean xs) * (y - rmean ys)) xs ys).sum)

/-- pandas `Series.corr` (Pearson): NaN (`none`) when either series has
zero variance (this covers fewer than two observations); the shared
normalisation of covariance and variances cancels. -/
noncomputable def pandasCorr (xs ys : List ℝ) : Option ℝ :=
  if rSumSqDev xs = 0 ∨ rSumSqDev ys = 0 then none
  else some (rSumDevProd xs ys / (Real.sqrt (rSumSqDev xs) * Real.sqrt (rSumSqDev ys)))

/-- `scipy.stats.linregress` slope: `ssxym / ssxm`; the common `1/n`
normalisation of scipy's `np.cov(x, y, bias=1)` entries cancels. -/
noncomputable def linregressSlope (xs ys : List ℝ) : ℝ :=
  rSumDevProd xs ys / rSumSqDev xs

/-- `scipy.stats.linregress` correlation coefficient `r_value`:
0 when the denominator vanishes (scipy's explicit zero-denominator
branch), otherwise the Pearson coefficient. -/
noncomputable def linregressR (xs ys : List ℝ) : ℝ :=
  if rSumSqDev xs = 0 ∨ rSumSqDev ys = 0 then 0
  else rSumDevProd xs ys / (Real.sqrt (rSumSqDev xs) * Real.sqrt (rSumSqDev ys))

/-! ### `_calculate_trend_strength` (lines 484-492)

```
try:
    x = np.arange(len(series[-window:]))
    y = series[-window:].values
    slope, _, r_value, _, _ = stats.linregress(x, y)
    return slope * r_value  # Slope adjusted by R-squared
except:
    return 0.0
```
`window` is always the default 20.  `series[-20:]` is the positional
tail of at most 20 entries.  `linregress` raises (all x identical)
exactly when the tail has fewer than two entries, landing in the
`except` branch. -/

/-- The positional tail of at most `n` entries, `series[-n:]`. -/
def lastN (n : Nat) (xs : List ℝ) : List ℝ := xs.drop (xs.length - n)

/-- `np.arange(m)` as a list of reals. -/
noncomputable def idxList (m : Nat) : List ℝ := (List.range m).map (fun i => (i : ℝ))

/-- `_calculate_trend_strength(series)`: the code returns
`slope * r_value` — the OLS slope times the correlation coefficient
(not its square). -/
noncomputable def trendStrength (series : List ℝ) : ℝ :=
  let y := lastN 20 series
  if y.length ≤ 1 then 0
  else linregressSlope (idxList y.length) y * linregressR (idxList y.length) y

/-- Modelled from the spec: the metric the spec describes — the OLS
slope of the trailing 20-day window multiplied by R² (the squared
correlation coefficient of that fit).  This is what
`_calculate_trend_strength` would compute if it returned
`slope * r_value ** 2`. -/
noncomputable def slopeTimesRSquared (series : List ℝ) : ℝ :=
  let y := lastN 20 series
  if y.length ≤ 1 then 0
  else linregressSlope (idxList y.length) y * (linregressR (idxList y.length) y) ^ 2

/-! ### `volume_return_correlation` (lines 199-210) and pandas index
alignment

```
volume = hist['Volume']; close = hist['Close']
returns = close.pct_change().dropna()
volume_return_corr = volume[1:].corr(returns)
```
A pandas Series is a list of (index, value) pairs; `Series.corr`
aligns its two arguments on their index labels (inner join over the
common labels) before computing Pearson correlation.  `volume[1:]`
keeps the original index labels 1..n-1, and `returns` (pct_change with
the leading NaN dropped) carries exactly the labels 1..n-1, so the
slice does not shift anything relative to the returns series. -/

/-- A list tagged with consecutive integer index labels starting at `k`
(the date index, dates embedded as positions). -/
def withIdx (k : Nat) : List ℝ → List (Nat × ℝ)
  | [] => []
  | x :: xs => (k, x) :: withIdx (k + 1) xs

/-- Label lookup in an indexed series / key lookup in a per-symbol
result mapping. -/
def lookupKey {κ α : Type} [DecidableEq κ] (k : κ) : List (κ × α) → Option α
  | [] => none
  | (i, x) :: rest => if i = k then some x else lookupKey k rest

/-- Inner join of two indexed series on their index labels, in the
label order of the first series. -/
def alignSeries (s t : List (Nat × ℝ)) : List (ℝ × ℝ) :=
  s.filterMap (fun p => (lookupKey p.1 t).map (fun y => (p.2, y)))

/-- Pearson correlation of two indexed series after pandas index
alignment. -/
noncomputable def corrAligned (s t : List (Nat × ℝ)) : Option ℝ :=
  pandasCorr ((alignSeries s t).map Prod.fst) ((alignSeries s t).map Prod.snd)

/-- `Series.pct_change().dropna()` over ℝ. -/
noncomputable def pctChangeR (ps : List ℝ) : List ℝ :=
  List.zipWith (fun a b => (b - a) / a) ps (ps.drop 1)

/-- `volume[1:].corr(returns)`: the volume series carries labels
0..n-1, the slice drops label 0, the returns series carries labels
1..n-1 (leading NaN of `pct_change` dropped), and `corr` aligns the
two on those labels. -/
noncomputable def volume_return_correlation (close volume : List ℝ) : Option ℝ :=
  corrAligned ((withIdx 0 volume).drop 1) (withIdx 1 (pctChangeR close))

/-- The claim's reading of the metric: Pearson correlation of the
volume series lagged by one day (day t-1 volume) against the day-t
return, over the overlapping range. -/
noncomputable def laggedVolumeReturnCorrelation (close volume : List ℝ) : Option ℝ :=
  pandasCorr volume.dropLast (pctChangeR close)

/-! ### An IEEE value model for NaN / infinity observations

`calculate_volatility_metrics` (lines 82-96) materialises NaN (pandas
sample std of a single observation) and `np.inf`:

```
downside_returns = returns[returns < 0]
downside_vol = downside_returns.std() * np.sqrt(252) if len(downside_returns) > 0 else 0
...
'upside_downside_ratio': (annualized_vol / downside_vol) if downside_vol > 0 else np.inf,
```
Any IEEE comparison against NaN is false. -/

/-- A float observation: NaN, +infinity, or a finite real. -/
inductive FloatVal where
  | nan : FloatVal
  | inf : FloatVal
  | val : ℝ → FloatVal

/-- IEEE `> 0` on a float observation: false for NaN. -/
noncomputable def floatPos : FloatVal → Bool
  | .nan => false
  | .inf => true
  | .val r => decide (0 < r)

/-- IEEE `> c` against a finite constant: false for NaN. -/
noncomputable def floatGt (x : FloatVal) (c : ℝ) : Bool :=
  match x with
  | .nan => false
  | .inf => true
  | .val r => decide (c < r)

/-- Division of float observations.  NaN propagates; a finite value
over +infinity is 0; +infinity over a finite value is +infinity;
division of finite values by zero (never reached under the `> 0`
guards of the code) is mapped to NaN. -/
noncomputable def floatDiv : FloatVal → FloatVal → FloatVal
  | .nan, _ => .nan
  | _, .nan => .nan
  | .inf, .inf => .nan
  | .inf, .val _ => .inf
  | .val _, .inf => .val 0
  | .val a, .val b => if b = 0 then .nan else .val (a / b)

/-- pandas `Series.std()` (ddof = 1): NaN on fewer than two
observations, otherwise the sample standard deviation. -/
noncomputable def sampleStdF (xs : List ℚ) : FloatVal :=
  if xs.length ≤ 1 then .nan
  else .val (Real.sqrt ((sumSqDev xs : ℝ) / ((xs.length : ℝ) - 1)))

/-- Multiplication of a float observation by a nonnegative real
constant (`* np.sqrt(252)`): NaN and infinity are absorbing. -/
noncomputable def floatScale (x : FloatVal) (c : ℝ) : FloatVal :=
  match x with
  | .nan => .nan
  | .inf => .inf
  | .val r => .val (r * c)

/-- `returns.std() * np.sqrt(252)`, the annualised volatility. -/
noncomputable def annualized_volatility (returns : List ℚ) : FloatVal :=
  floatScale (sampleStdF returns) (Real.sqrt 252)

/-- `downside_vol` of lines 83-84: the annualised sample std of the
strictly negative returns, or the float 0 when there are none. -/
noncomputable def downside_volatility (returns : List ℚ) : FloatVal :=
  let ds := returns.filter (fun r => decide (r < 0))
  if 0 < ds.length then floatScale (sampleStdF ds) (Real.sqrt 252) else .val 0

/-- `upside_downside_ratio` of line 96. -/
noncomputable def upside_downside_ratio (returns : List ℚ) : FloatVal :=
  if floatPos (downside_volatility returns) then
    floatDiv (annualized_volatility returns) (downside_volatility returns)
  else .inf

/-! ### `analyze_volume_patterns` (lines 184-234)

Per symbol it fetches an independent OHLCV history; the fetch is an
external collaborator, embedded as a function from symbol to
`Except`-wrapped history (`Except.error` = the Python call raised).
A fetched history is its list of daily (Close, Volume) rows plus a flag
for the presence of the Volume column (`'Volume' not in hist.columns`).
After the fetch, the body (lines 199-228) only applies pandas/numpy
arithmetic, which does not raise on a non-empty frame
(`_calculate_trend_strength` guards itself with its own
`try/except`), so the `except` branch of the loop is reached exactly
when the fetch raises. -/

/-- One symbol's fetched daily history. -/
structure Hist where
  rows : List (ℚ × ℚ)
  hasVolumeCol : Bool

/-- Entry `i` of the 20-day z-score comparison
`volume_zscore > 2` of line 213-214: NaN z-scores (first 19 entries)
compare false; a zero rolling std makes the z-score ±infinity or NaN
depending on the sign of the numerator. -/
noncomputable def surgeAt (volume : List ℚ) (i : Nat) : Bool :=
  if i + 1 < 20 then false
  else
    let w := (volume.take (i + 1)).drop (i + 1 - 20)
    let sd2 := sumSqDev w / (19 : ℚ)
    let v := volume.getD i 0
    if sd2 = 0 then decide (qmean w < v)
    else decide ((2 : ℝ) * Real.sqrt ((sd2 : ℚ) : ℝ) < ((v : ℚ) : ℝ) - ((qmean w : ℚ) : ℝ))

/-- `surge_frequency = (volume_zscore > 2).sum() / len(volume)`. -/
noncomputable def surgeFrequency (volume : List ℚ) : ℝ :=
  (((List.range volume.length).filter (fun i => surgeAt volume i)).length : ℝ)
    / (volume.length : ℝ)

/-- The per-symbol metric record built at lines 221-228. -/
structure VolumeMetrics where
  avg_volume : ℚ
  volume_volatility : FloatVal
  volume_price_correlation : Option ℝ
  volume_return_correlation : Option ℝ
  volume_surge_frequency : ℝ
  obv_trend_strength : ℝ

/-- The metric record computed for one successfully fetched symbol
(lines 199-228). -/
noncomputable def volMetricsOf (h : Hist) : VolumeMetrics :=
  let close := h.rows.map Prod.fst
  let volume := h.rows.map Prod.snd
  { avg_volume := qmean volume
  , volume_volatility := floatDiv (sampleStdF volume) (.val ((qmean volume : ℚ) : ℝ))
  , volume_price_correlation :=
      pandasCorr (volume.map (fun q => ((q : ℚ) : ℝ))) (close.map (fun q => ((q : ℚ) : ℝ)))
  , volume_return_correlation :=
      volume_return_correlation (close.map (fun q => ((q : ℚ) : ℝ)))
        (volume.map (fun q => ((q : ℚ) : ℝ)))
  , volume_surge_frequency := surgeFrequency volume
  , obv_trend_strength :=
      trendStrength ((calculate_obv close volume).map (fun q => ((q : ℚ) : ℝ))) }

/-- The per-symbol loop of `analyze_volume_patterns`: a raising fetch
is caught and the symbol skipped (`except ... continue`); an empty
history or a missing Volume column is skipped (`continue`); otherwise
the symbol is recorded with its metric record. -/
noncomputable def analyze_volume_patterns
    (fetch : String → Except String Hist) :
    List String → List (String × VolumeMetrics)
  | [] => []
  | s :: rest =>
      match fetch s with
      | Except.error _ => analyze_volume_patterns fetch rest
      | Except.ok h =>
          if h.rows.isEmpty || !h.hasVolumeCol then analyze_volume_patterns fetch rest
          else (s, volMetricsOf h) :: analyze_volume_patterns fetch rest

/-! ### `generate_trading_insights` (lines 270-330)

Per symbol, a fixed rule list over the metric records, each metric
family contributing only when the symbol is a key of its mapping
(`if symbol in vol_metrics`, ..., `if symbol in volume_metrics`). -/

/-- The fields of a volatility metric record read by the insight
rules. -/
structure VolRec where
  volatility_percentile : ℝ
  upside_downside_ratio : FloatVal

/-- The fields of a beta metric record read by the insight rules. -/
structure BetaRec where
  beta : ℚ
  beta_asymmetry : ℚ

/-- IEEE `> c` on a possibly-NaN float: false for NaN. -/
noncomputable def optGt (o : Option ℝ) (c : ℝ) : Bool :=
  match o with
  | none => false
  | some v => decide (c < v)

/-- IEEE `< c` on a possibly-NaN float: false for NaN. -/
noncomputable def optLt (o : Option ℝ) (c : ℝ) : Bool :=
  match o with
  | none => false
  | some v => decide (v < c)

/-- IEEE `abs(x) > c` on a possibly-NaN float: false for NaN. -/
noncomputable def optAbsGt (o : Option ℝ) (c : ℝ) : Bool :=
  match o with
  | none => false
  | some v => decide (c < |v|)

def insHighVol : String := "HIGH VOLATILITY REGIME - Consider reduced position sizes"

def insLowVol : String := "LOW VOLATILITY REGIME - Potential for volatility expansion"

def insAsym : String := "ASYMMETRIC RISK - More upside than downside volatility"

def insHighCorr : String := "HIGH MARKET CORRELATION - Market timing crucial"

def insLowCorr : String := "LOW MARKET CORRELATION - Stock-specific factors dominate"

def insHighBeta : String := "HIGH BETA - Amplified market movements"

def insLowBeta : String := "LOW BETA - Defensive characteristics"

def insUpLev : String := "UPSIDE LEVERAGE - Better performance in bull markets"

def insVolSpikes : String := "FREQUENT VOLUME SPIKES - News-driven or institutional activity"

def insVolPrice : String := "VOLUME-PRICE RELATIONSHIP - Volume confirms price moves"

def insNormal : String := "NORMAL MARKET BEHAVIOR"

def insSep : String := " | "

/-- Volatility insight rules (lines 286-295). -/
noncomputable def volInsightParts (o : Option VolRec) : List String :=
  match o with
  | none => []
  | some v =>
      (if (80 : ℝ) < v.volatility_percentile then [insHighVol]
       else if v.volatility_percentile < 20 then [insLowVol] else [])
      ++ (if floatGt v.upside_downside_ratio 2 then [insAsym] else [])

/-- Benchmark-correlation insight rules (lines 297-304). -/
noncomputable def corrInsightParts (o : Option (Option ℝ)) : List String :=
  match o with
  | none => []
  | some c =>
      if optGt c ((8 : ℝ) / 10) then [insHighCorr]
      else if optLt c ((3 : ℝ) / 10) then [insLowCorr] else []

/-- Beta insight rules (lines 306-316). -/
def betaInsightParts (o : Option BetaRec) : List String :=
  match o with
  | none => []
  | some b =>
      (if (3 : ℚ) / 2 < b.beta then [insHighBeta]
       else if b.beta < (1 : ℚ) / 2 then [insLowBeta] else [])
      ++ (if (3 : ℚ) / 10 < b.beta_asymmetry then [insUpLev] else [])

/-- Volume insight rules (lines 318-326). -/
noncomputable def volumeInsightParts (o : Option VolumeMetrics) : List String :=
  match o with
  | none => []
  | some m =>
      (if (1 : ℝ) / 10 < m.volume_surge_frequency then [insVolSpikes] else [])
      ++ (if optAbsGt m.volume_return_correlation ((3 : ℝ) / 10) then [insVolPrice] else [])

/-- The insight string generated for one symbol (lines 282-328): the
triggered labels in source order, joined, or the NORMAL sentinel when
none trigger. -/
noncomputable def insightFor
    (volM : List (String × VolRec)) (corrM : List (String × Option ℝ))
    (betaM : List (String × BetaRec)) (volumeM : List (String × VolumeMetrics))
    (sym : String) : String :=
  let parts := volInsightParts (lookupKey sym volM)
    ++ corrInsightParts (lookupKey sym corrM)
    ++ betaInsightParts (lookupKey sym betaM)
    ++ volumeInsightParts (lookupKey sym volumeM)
  if parts.isEmpty then insNormal else String.intercalate insSep parts

/-! ### Concrete inputs used by counterexamples and witnesses -/

def symA : String := "AAPL"

def symB : String := "MSFT"

def errNetwork : String := "network unreachable"

def benchSPY : String := "SPY"

/-- A market-data environment in which the fetch for `symA` raises and
the fetch for every other symbol succeeds but returns an empty
history. -/
def fetchEmptyOk (s : String) : Except String Hist :=
  if s = symA then Except.error errNetwork else Except.ok { rows := [], hasVolumeCol := true }

/-- A two-day history with data. -/
def histTwoDays : Hist :=
  { rows := [(1, 5), (2, 7)], hasVolumeCol := true }

/-- A market-data environment in which the fetch for `symA` raises and
the fetch for every other symbol succeeds with `histTwoDays`. -/
def fetchMixed (s : String) : Except String Hist :=
  if s = symA then Except.error errNetwork else Except.ok histTwoDays

/-- A benchmark return series with exactly 10 positive days. -/
def tenUpBench : List ℚ := [1, 2, 3, 4, 5, 6, 7, 8, 9, 10, -1, -2]

/-- An analyzer state on which `fetch_data` has already run. -/
def analyzerFetched : Analyzer :=
  { symbols := [symA, symB], benchmark := benchSPY, lookback_days := 252
  , data := some [[1, 2], [2, 3]], returns := some [[1, 1 / 2]] }

/-!
## Theorems
-/

lemma obvAux_length : ∀ (rows : List (ℚ × ℚ)) (prevC prevO : ℚ),
    (obvAux prevC prevO rows).length = rows.length
  | [], _, _ => rfl
  | (c, v) :: rest, prevC, prevO => by
      simp [obvAux, obvAux_length rest]

lemma obvAux_chain : ∀ (rows : List (ℚ × ℚ)) (prevC prevO : ℚ) (i : Nat),
    i < rows.length →
    (prevO :: obvAux prevC prevO rows).getD (i + 1) 0 =
      (prevO :: obvAux prevC prevO rows).getD i 0 +
        (if (prevC :: rows.map Prod.fst).getD i 0 < (rows.map Prod.fst).getD i 0
            then (rows.map Prod.snd).getD i 0
         else if (rows.map Prod.fst).getD i 0 < (prevC :: rows.map Prod.fst).getD i 0
            then -((rows.map Prod.snd).getD i 0)
         else 0)
  | [], _, _, i, hi => absurd hi (by simp)
  | (c, v) :: rest, prevC, prevO, 0, _ => by
      simp only [obvAux, List.map_cons, List.getD_cons_succ, List.getD_cons_zero]
      by_cases h1 : prevC < c
      · simp [h1]
      · by_cases h2 : c < prevC
        · simp [h1, h2]
          ring
        · simp [h1, h2]
  | (c, v) :: rest, prevC, prevO, i + 1, hi => by
      have hi' : i < rest.length := by
        simpa using Nat.lt_of_succ_lt_succ hi
      have ih := obvAux_chain rest c
        (if prevC < c then prevO + v else if c < prevC then prevO - v else prevO) i hi'
      simpa [obvAux, List.getD_cons_succ] using ih

/-- Claim C1: for every pair of equal-length non-empty close-price and
volume series, the OBV series of `_calculate_obv` has the length of the
inputs, satisfies OBV[0] = volume[0], and for 0 < i < n satisfies
OBV[i] = OBV[i-1] + volume[i] when close[i] > close[i-1],
OBV[i] = OBV[i-1] - volume[i] when close[i] < close[i-1], and
OBV[i] = OBV[i-1] otherwise.  Determinism is inherent: the embedding
is a pure function of the two series. -/
theorem obv_recurrence (close volume : List ℚ) (i : Nat)
    (hlen : close.length = volume.length) (hne : close ≠ [])
    (h0 : 0 < i) (hi : i < close.length) :
    (calculate_obv close volume).length = close.length ∧
    (calculate_obv close volume).getD 0 0 = volume.getD 0 0 ∧
    (calculate_obv close volume).getD i 0 =
      (calculate_obv close volume).getD (i - 1) 0 +
        (if close.getD (i - 1) 0 < close.getD i 0 then volume.getD i 0
         else if close.getD i 0 < close.getD (i - 1) 0 then -(volume.getD i 0)
         else 0) := by
  match close, volume with
  | [], _ => exact absurd rfl hne
  | c :: cs, [] => simp at hlen
  | c :: cs, v :: vs =>
    have hlen' : cs.length = vs.length := by simpa using hlen
    have hobv : calculate_obv (c :: cs) (v :: vs) = v :: obvAux c v (List.zip cs vs) := rfl
    obtain ⟨j, rfl⟩ : ∃ j, i = j + 1 := ⟨i - 1, by omega⟩
    have hj : j < (List.zip cs vs).length := by
      rw [List.length_zip]
      simp only [List.length_cons] at hi
      omega
    have hchain := obvAux_chain (List.zip cs vs) c v j hj
    have hfst : (List.zip cs vs).map Prod.fst = cs :=
      List.map_fst_zip cs vs (le_of_eq hlen')
    have hsnd : (List.zip cs vs).map Prod.snd = vs :=
      List.map_snd_zip cs vs (le_of_eq hlen'.symm)
    rw [hfst, hsnd] at hchain
    refine ⟨?_, rfl, ?_⟩
    · rw [hobv]
      simp [obvAux_length, List.length_zip, hlen']
    · rw [hobv]
      simpa [List.getD_cons_succ] using hchain

/-- Claim C1 witness: the recurrence instantiated at i = 2 of the
concrete series close = [1, 3, 2, 2], volume = [5, 7, 4, 6]
(OBV = [5, 12, 8, 8]). -/
theorem obv_recurrence_witness :
    (([(1 : ℚ), 3, 2, 2].length = [(5 : ℚ), 7, 4, 6].length) ∧
      [(1 : ℚ), 3, 2, 2] ≠ [] ∧ 0 < 2 ∧ 2 < [(1 : ℚ), 3, 2, 2].length) ∧
    ((calculate_obv [(1 : ℚ), 3, 2, 2] [(5 : ℚ), 7, 4, 6]).length = [(1 : ℚ), 3, 2, 2].length ∧
     (calculate_obv [(1 : ℚ), 3, 2, 2] [(5 : ℚ), 7, 4, 6]).getD 0 0 = [(5 : ℚ), 7, 4, 6].getD 0 0 ∧
     (calculate_obv [(1 : ℚ), 3, 2, 2] [(5 : ℚ), 7, 4, 6]).getD 2 0 =
       (calculate_obv [(1 : ℚ), 3, 2, 2] [(5 : ℚ), 7, 4, 6]).getD (2 - 1) 0 +
         (if [(1 : ℚ), 3, 2, 2].getD (2 - 1) 0 < [(1 : ℚ), 3, 2, 2].getD 2 0
            then [(5 : ℚ), 7, 4, 6].getD 2 0
          else if [(1 : ℚ), 3, 2, 2].getD 2 0 < [(1 : ℚ), 3, 2, 2].getD (2 - 1) 0
            then -([(5 : ℚ), 7, 4, 6].getD 2 0)
          else 0)) :=
  ⟨⟨by decide, by decide, by decide, by decide⟩,
   obv_recurrence _ _ 2 (by decide) (by decide) (by decide) (by decide)⟩

lemma sum_map_mul (k : ℚ) : ∀ (l : List ℚ), (l.map (fun r => k * r)).sum = k * l.sum
  | [] => by simp
  | x :: xs => by
      simp [sum_map_mul k xs]
      ring

lemma zipWith_scale_sum (k a b : ℚ) : ∀ (l : List ℚ),
    (List.zipWith (fun x y => (x - a) * (y - b)) (l.map (fun r => k * r)) l).sum =
      (l.map (fun y => (k * y - a) * (y - b))).sum
  | [] => rfl
  | x :: xs => by simp [zipWith_scale_sum k a b xs]

lemma qmean_scale (k : ℚ) (l : List ℚ) :
    qmean (l.map (fun r => k * r)) = k * qmean l := by
  simp [qmean, sum_map_mul]
  ring

lemma sum_map_mul_fun (k : ℚ) (f : ℚ → ℚ) : ∀ (l : List ℚ),
    (l.map (fun y => k * f y)).sum = k * (l.map f).sum
  | [] => by simp
  | x :: xs => by
      simp [sum_map_mul_fun k f xs]
      ring

lemma sumDevProd_scale (k : ℚ) (l : List ℚ) :
    sumDevProd (l.map (fun r => k * r)) l = k * sumSqDev l := by
  unfold sumDevProd sumSqDev
  rw [qmean_scale, zipWith_scale_sum]
  have h1 : l.map (fun y => (k * y - k * qmean l) * (y - qmean l)) =
      l.map (fun y => k * ((y - qmean l) ^ 2)) :=
    List.map_congr_left (fun y _ => by ring)
  rw [h1, sum_map_mul_fun]

/-- Claim C3 counterexample: on the returns table with benchmark
[1, 2, 3] and stock = 2 × benchmark (benchmark variance nonzero),
`calculate_beta_metrics` yields beta = 3 ≠ 2 and
alpha_annualized = -504 ≠ 0: numpy's sample covariance (denominator
N-1) is divided by numpy's population variance (denominator N). -/
theorem beta_proportional_counterexample :
    [(2 : ℚ), 4, 6] = [(1 : ℚ), 2, 3].map (fun r => 2 * r) ∧
    popVar [(1 : ℚ), 2, 3] ≠ 0 ∧
    beta [(2 : ℚ), 4, 6] [(1 : ℚ), 2, 3] ≠ 2 ∧
    alpha_annualized [(2 : ℚ), 4, 6] [(1 : ℚ), 2, 3] ≠ 0 := by
  have hpv : popVar [(1 : ℚ), 2, 3] = 2 / 3 := by
    norm_num [popVar, sumSqDev, qmean]
  have hsc : sampleCov [(2 : ℚ), 4, 6] [(1 : ℚ), 2, 3] = 2 := by
    norm_num [sampleCov, sumDevProd, qmean]
  have hb : beta [(2 : ℚ), 4, 6] [(1 : ℚ), 2, 3] = 3 := by
    rw [beta, if_pos (by rw [hpv]; norm_num), hsc, hpv]
    norm_num
  have ha : alpha_annualized [(2 : ℚ), 4, 6] [(1 : ℚ), 2, 3] = -504 := by
    rw [alpha_annualized, hb]
    norm_num [qmean]
  exact ⟨by norm_num, by rw [hpv]; norm_num, by rw [hb]; norm_num, by rw [ha]; norm_num⟩

/-- Claim C3 (amended): for a stock series exactly k times the
benchmark (nonzero benchmark population variance, N observations),
`calculate_beta_metrics` returns beta = k · N/(N-1) — not k — because
the sample covariance (N-1) is divided by the population variance (N);
accordingly alpha_annualized = -(k · 252 · mean_benchmark)/(N-1),
which is 0 exactly when the benchmark mean (or k) is 0, not always. -/
theorem beta_proportional (k : ℚ) (bench : List ℚ) (hvar : popVar bench ≠ 0) :
    beta (bench.map (fun r => k * r)) bench =
      k * (bench.length : ℚ) / ((bench.length : ℚ) - 1) ∧
    alpha_annualized (bench.map (fun r => k * r)) bench =
      -(k * 252 * qmean bench) / ((bench.length : ℚ) - 1) := by
  have hS : sumSqDev bench ≠ 0 := by
    intro h
    exact hvar (by simp [popVar, h])
  have hn0 : (bench.length : ℚ) ≠ 0 := by
    intro h
    exact hvar (by simp [popVar, h])
  have hn1 : (bench.length : ℚ) - 1 ≠ 0 := by
    intro h
    have hlen : bench.length = 1 := by
      have := sub_eq_zero.mp h
      exact_mod_cast this
    obtain ⟨a, rfl⟩ := List.length_eq_one.mp hlen
    apply hS
    simp [sumSqDev, qmean]
  have hbeta : beta (bench.map (fun r => k * r)) bench =
      k * (bench.length : ℚ) / ((bench.length : ℚ) - 1) := by
    rw [beta, if_pos hvar]
    rw [sampleCov, sumDevProd_scale, List.length_map, popVar]
    field_simp
    ring
  refine ⟨hbeta, ?_⟩
  rw [alpha_annualized, hbeta, qmean_scale]
  field_simp
  ring

/-- Claim C3 witness: the amended formulas at k = 2,
benchmark = [1, 2, 3] (beta = 3, alpha = -504). -/
theorem beta_proportional_witness :
    popVar [(1 : ℚ), 2, 3] ≠ 0 ∧
    (beta ([(1 : ℚ), 2, 3].map (fun r => 2 * r)) [(1 : ℚ), 2, 3] =
        2 * (([(1 : ℚ), 2, 3].length : ℚ)) / (([(1 : ℚ), 2, 3].length : ℚ) - 1) ∧
     alpha_annualized ([(1 : ℚ), 2, 3].map (fun r => 2 * r)) [(1 : ℚ), 2, 3] =
        -(2 * 252 * qmean [(1 : ℚ), 2, 3]) / (([(1 : ℚ), 2, 3].length : ℚ) - 1)) :=
  ⟨by norm_num [popVar, sumSqDev, qmean],
   beta_proportional 2 [(1 : ℚ), 2, 3] (by norm_num [popVar, sumSqDev, qmean])⟩

lemma maskSelect_cons (b : Bool) (mask : List Bool) (x : ℚ) (xs : List ℚ) :
    maskSelect (b :: mask) (x :: xs) =
      (if b then [x] else []) ++ maskSelect mask xs := by
  by_cases hb : b <;> simp [maskSelect, List.filter_cons, hb]

lemma mask_zip_spec (p : ℚ → Bool) : ∀ (xs ys : List ℚ), xs.length = ys.length →
    maskSelect (ys.map p) xs = ((List.zip xs ys).filter (fun q => p q.2)).map Prod.fst ∧
    maskSelect (ys.map p) ys = ((List.zip xs ys).filter (fun q => p q.2)).map Prod.snd ∧
    (ys.map p).count true = ((List.zip xs ys).filter (fun q => p q.2)).length := by
  intro xs
  induction xs with
  | nil =>
      intro ys h
      cases ys with
      | nil => simp [maskSelect]
      | cons y ys => simp at h
  | cons x xs ih =>
      intro ys h
      cases ys with
      | nil => simp at h
      | cons y ys =>
          have h' : xs.length = ys.length := by simpa using h
          obtain ⟨h1, h2, h3⟩ := ih ys h'
          by_cases hp : p y
          · simp [maskSelect_cons, List.zip_cons_cons, List.filter_cons, hp,
              List.count_cons, h1, h2, h3]
          · simp [maskSelect_cons, List.zip_cons_cons, List.filter_cons, hp,
              List.count_cons, h1, h2, h3]

/-- Claim C4 counterexample: with exactly 10 up-market days (benchmark
`tenUpBench`, stock = benchmark), the restricted covariance-over-
variance is 10/9 ≠ 0, yet the code's `upside_beta` is 0: the guard is
`up_market.sum() > 10`, which requires at least 11 qualifying
observations, not 10. -/
theorem upside_beta_ten_observations_counterexample :
    (upPairs tenUpBench tenUpBench).length = 10 ∧
    restrictedBeta (upPairs tenUpBench tenUpBench) ≠ 0 ∧
    upside_beta tenUpBench tenUpBench = 0 := by
  have hup : upPairs tenUpBench tenUpBench =
      [(1, 1), (2, 2), (3, 3), (4, 4), (5, 5), (6, 6), (7, 7), (8, 8), (9, 9), (10, 10)] := by
    norm_num [upPairs, tenUpBench, List.filter_cons]
  refine ⟨by rw [hup]; rfl, ?_, ?_⟩
  · rw [hup]
    have hv : popVar ((([((1 : ℚ), (1 : ℚ)), (2, 2), (3, 3), (4, 4), (5, 5), (6, 6), (7, 7),
        (8, 8), (9, 9), (10, 10)]).map Prod.snd)) = 33 / 4 := by
      norm_num [popVar, sumSqDev, qmean]
    rw [restrictedBeta, if_pos (by rw [hv]; norm_num)]
    rw [hv]
    norm_num [sampleCov, sumDevProd, qmean]
  · rw [upside_beta, if_neg]
    norm_num [upMask, tenUpBench, List.count_cons]

/-- Claim C4 (amended): `upside_beta` (resp. `downside_beta`) equals
the restricted sample-covariance over population-variance of the
up-market (down-market) days (0 on zero restricted variance) whenever
STRICTLY MORE than 10 qualifying observations exist — i.e. at least
11 — and equals exactly 0 otherwise; the code's boolean-mask selection
agrees with filtering the zipped day pairs on the benchmark sign. -/
theorem upside_downside_beta_threshold (stock bench : List ℚ)
    (hlen : stock.length = bench.length) :
    upside_beta stock bench =
      (if 10 < (upPairs stock bench).length then restrictedBeta (upPairs stock bench) else 0) ∧
    downside_beta stock bench =
      (if 10 < (downPairs stock bench).length then restrictedBeta (downPairs stock bench)
       else 0) := by
  obtain ⟨h1, h2, h3⟩ := mask_zip_spec (fun r => decide (0 < r)) stock bench hlen
  obtain ⟨g1, g2, g3⟩ := mask_zip_spec (fun r => decide (r < 0)) stock bench hlen
  constructor
  · rw [upside_beta, upMask, h1, h2, h3]
    rfl
  · rw [downside_beta, downMask, g1, g2, g3]
    rfl

/-- Claim C4 witness: the amended statement at stock = [1, -1],
bench = [2, -3] (one up day, one down day: both betas 0). -/
theorem upside_downside_beta_threshold_witness :
    ([(1 : ℚ), -1].length = [(2 : ℚ), -3].length) ∧
    (upside_beta [(1 : ℚ), -1] [(2 : ℚ), -3] =
      (if 10 < (upPairs [(1 : ℚ), -1] [(2 : ℚ), -3]).length then
        restrictedBeta (upPairs [(1 : ℚ), -1] [(2 : ℚ), -3]) else 0) ∧
     downside_beta [(1 : ℚ), -1] [(2 : ℚ), -3] =
      (if 10 < (downPairs [(1 : ℚ), -1] [(2 : ℚ), -3]).length then
        restrictedBeta (downPairs [(1 : ℚ), -1] [(2 : ℚ), -3]) else 0)) :=
  ⟨rfl, upside_downside_beta_threshold [(1 : ℚ), -1] [(2 : ℚ), -3] rfl⟩

lemma regimeSwitchLoop_eq : ∀ (bs : List Bool) (prev : Bool) (k : Nat),
    regimeSwitchLoop prev k bs =
      ((List.range bs.length).filter
        (fun t => bs.getD t false ≠ (prev :: bs).getD t false)).map (fun t => k + t)
  | [], prev, k => by simp [regimeSwitchLoop]
  | b :: bs, prev, k => by
      rw [regimeSwitchLoop, regimeSwitchLoop_eq bs b (k + 1)]
      rw [List.length_cons, List.range_succ_eq_map, List.filter_cons]
      have htail : List.filter
          (fun t => decide ((b :: bs).getD t false ≠ (prev :: b :: bs).getD t false))
          (List.map Nat.succ (List.range bs.length)) =
          List.map Nat.succ (List.filter
            (fun t => decide (bs.getD t false ≠ (b :: bs).getD t false))
            (List.range bs.length)) := by
        rw [List.filter_map]
        refine congrArg (List.map Nat.succ) ?_
        apply List.filter_congr
        intro t _
        simp [Function.comp, List.getD_cons_succ]
      have htail2 : List.map (fun t => k + t) (List.filter
          (fun t => decide ((b :: bs).getD t false ≠ (prev :: b :: bs).getD t false))
          (List.map Nat.succ (List.range bs.length))) =
          List.map (fun t => k + 1 + t) (List.filter
            (fun t => decide (bs.getD t false ≠ (b :: bs).getD t false))
            (List.range bs.length)) := by
        rw [htail, List.map_map]
        apply List.map_congr_left
        intro t _
        simp only [Function.comp_apply]
        omega
      by_cases hb : b = prev
      · rw [if_neg (by simp [hb]), if_neg (by simp [hb])]
        exact htail2.symm
      · rw [if_pos hb, if_pos (by simp [hb])]
        rw [List.map_cons, htail2]
        norm_num

lemma mem_regimeSwitches (ind : List Bool) (j : Nat) :
    j ∈ regimeSwitches ind ↔
      j < ind.length ∧ ind.getD j false ≠ (false :: ind).getD j false := by
  rw [regimeSwitches, regimeSwitchLoop_eq]
  simp [List.mem_map, List.mem_filter, List.mem_range]

lemma highVolRegime_head (f : List ℚ → ℚ) (m : ℚ) (xs : List ℚ) :
    (highVolRegime (rollingApply 60 f xs) m).getD 0 false = false := by
  cases xs with
  | nil => rfl
  | cons x xs =>
      simp [rollingApply, highVolRegime, List.range_succ_eq_map]

/-- Claim C5: per symbol, `identify_regime_changes` emits positions
inside the series only, and a position i is emitted iff i > 0 and the
high-vol boolean indicator differs at i and i-1; the first date is
never emitted because the 60-day rolling window is NaN there, making
the indicator False, equal to the loop's initial `previous_regime`.
The rolling aggregator f (the sample std) and the threshold scalar m
(1.5 × the median of the rolling series) are arbitrary parameters:
the emission pattern depends only on the resulting boolean series. -/
theorem regime_switch_membership (f : List ℚ → ℚ) (m : ℚ) (xs : List ℚ) (i : Nat)
    (hi : i < xs.length) :
    (identify_regime_changes f m xs).all (fun j => decide (j < xs.length)) = true ∧
    (i ∈ identify_regime_changes f m xs ↔
      0 < i ∧ (highVolRegime (rollingApply 60 f xs) m).getD i false ≠
              (highVolRegime (rollingApply 60 f xs) m).getD (i - 1) false) := by
  have hlen : (highVolRegime (rollingApply 60 f xs) m).length = xs.length := by
    simp [highVolRegime, rollingApply]
  have hid : identify_regime_changes f m xs =
      regimeSwitches (highVolRegime (rollingApply 60 f xs) m) := rfl
  constructor
  · rw [List.all_eq_true]
    intro j hj
    rw [hid] at hj
    obtain ⟨hjlen, _⟩ := (mem_regimeSwitches _ j).mp hj
    simpa [hlen] using hjlen
  · rw [hid, mem_regimeSwitches]
    cases i with
    | zero =>
        have h0 : (highVolRegime (rollingApply 60 f xs) m).getD 0 false = false :=
          highVolRegime_head f m xs
        rw [List.getD_cons_zero, h0]
        simp
    | succ t =>
        have ht : t + 1 < (highVolRegime (rollingApply 60 f xs) m).length := by
          rw [hlen]; exact hi
        simp [List.getD_cons_succ, ht]

/-- Claim C5 witness: the membership characterisation at i = 1 of a
concrete three-day return series (windows of 60 all NaN, indicator
constant False, no switch emitted). -/
theorem regime_switch_membership_witness :
    (1 < ([(1 : ℚ), 2, 3]).length) ∧
    ((identify_regime_changes qmean 0 [(1 : ℚ), 2, 3]).all
        (fun j => decide (j < ([(1 : ℚ), 2, 3]).length)) = true ∧
     ((1 ∈ identify_regime_changes qmean 0 [(1 : ℚ), 2, 3]) ↔
       0 < 1 ∧ (highVolRegime (rollingApply 60 qmean [(1 : ℚ), 2, 3]) 0).getD 1 false ≠
               (highVolRegime (rollingApply 60 qmean [(1 : ℚ), 2, 3]) 0).getD (1 - 1) false)) :=
  ⟨by decide, regime_switch_membership qmean 0 [(1 : ℚ), 2, 3] 1 (by decide)⟩

/-- Claim C7: the `volatility_clustering` flag is true exactly when the
Ljung-Box p-value computed on the squared return series exceeds 0.05;
when statsmodels is unavailable (`available = false`) the p-value used
is the constant 0.5, so the flag is then true for every return
series. -/
theorem volatility_clustering_spec (lb : List ℚ → ℚ) (returns : List ℚ) :
    (volatility_clustering true lb returns = true ↔
      5 / 100 < lb (returns.map (fun r => r ^ 2))) ∧
    volatility_clustering false lb returns = true := by
  constructor
  · simp [volatility_clustering, ljung_box_test]
  · simp only [volatility_clustering, ljung_box_test, if_neg Bool.false_ne_true,
      decide_eq_true_eq]
    norm_num

/-- Claim C8: once the analyzer's returns table is set (by
`fetch_data`), none of the public methods changes any analyzer field:
the `if self.returns is None` guard short-circuits, the volume-pattern
method performs only side fetches, and the derived methods compose the
former.  The equalities are on the whole state record, so symbols,
benchmark, lookback, price table and returns table are all
preserved. -/
theorem analyzer_state_frame (env : List (List (Option ℚ))) (s : Analyzer)
    (r : List (List ℚ)) (hret : s.returns = some r) :
    volatilityMetricsState env s = s ∧
    correlationMatrixState env s = s ∧
    betaMetricsState env s = s ∧
    volumePatternsState s = s ∧
    regimeChangesState env s = s ∧
    tradingInsightsState env s = s ∧
    strategyRecommendationsState env s = s ∧
    exportReportState env s = s := by
  have he : ensureData env s = s := by
    rw [ensureData, hret]
  simp [volatilityMetricsState, correlationMatrixState, betaMetricsState,
    volumePatternsState, regimeChangesState, tradingInsightsState,
    strategyRecommendationsState, exportReportState, he]

/-- Claim C8 witness: the frame property at a concrete fetched
analyzer state and a concrete provider grid. -/
theorem analyzer_state_frame_witness :
    (analyzerFetched.returns = some [[1, 1 / 2]]) ∧
    (volatilityMetricsState [] analyzerFetched = analyzerFetched ∧
     correlationMatrixState [] analyzerFetched = analyzerFetched ∧
     betaMetricsState [] analyzerFetched = analyzerFetched ∧
     volumePatternsState analyzerFetched = analyzerFetched ∧
     regimeChangesState [] analyzerFetched = analyzerFetched ∧
     tradingInsightsState [] analyzerFetched = analyzerFetched ∧
     strategyRecommendationsState [] analyzerFetched = analyzerFetched ∧
     exportReportState [] analyzerFetched = analyzerFetched) :=
  ⟨rfl, analyzer_state_frame [] analyzerFetched [[1, 1 / 2]] rfl⟩

/-- Claim C10: for a return series with exactly one strictly negative
return, `downside_returns.std()` is the sample standard deviation of a
single observation — NaN — so `calculate_volatility_metrics` stores
downside_volatility = NaN, and since NaN fails the `downside_vol > 0`
test, upside_downside_ratio = np.inf. -/
theorem single_negative_return_nan (returns : List ℚ)
    (h1 : (returns.filter (fun r => decide (r < 0))).length = 1) :
    downside_volatility returns = FloatVal.nan ∧
    upside_downside_ratio returns = FloatVal.inf := by
  have hd : downside_volatility returns = FloatVal.nan := by
    simp [downside_volatility, sampleStdF, floatScale, h1]
  refine ⟨hd, ?_⟩
  rw [upside_downside_ratio, hd]
  simp [floatPos]

/-- Claim C10 witness: the series [1, -1, 2] has exactly one negative
return; its downside volatility is NaN and its upside/downside ratio
is infinite. -/
theorem single_negative_return_nan_witness :
    (([(1 : ℚ), -1, 2].filter (fun r => decide (r < 0))).length = 1) ∧
    (downside_volatility [(1 : ℚ), -1, 2] = FloatVal.nan ∧
     upside_downside_ratio [(1 : ℚ), -1, 2] = FloatVal.inf) :=
  ⟨by norm_num [List.filter_cons],
   single_negative_return_nan [(1 : ℚ), -1, 2] (by norm_num [List.filter_cons])⟩

/-- Claim C2: `_calculate_trend_strength` returns `slope * r_value` —
the OLS slope times the PLAIN correlation coefficient — although its
own inline comment and the spec say slope × R².  On the series
[3, 2, 1] the fit has slope -1 and r = -1, so the code returns
(-1)·(-1) = 1 while slope × R² = (-1)·1 = -1. -/
theorem trend_strength_not_r_squared :
    trendStrength [(3 : ℝ), 2, 1] = 1 ∧
    slopeTimesRSquared [(3 : ℝ), 2, 1] = -1 ∧
    trendStrength [(3 : ℝ), 2, 1] ≠ slopeTimesRSquared [(3 : ℝ), 2, 1] := by
  have hx : idxList 3 = [(0 : ℝ), 1, 2] := by
    norm_num [idxList, List.range_succ]
  have hmx : rmean [(0 : ℝ), 1, 2] = 1 := by norm_num [rmean]
  have hmy : rmean [(3 : ℝ), 2, 1] = 2 := by norm_num [rmean]
  have hsx : rSumSqDev [(0 : ℝ), 1, 2] = 2 := by norm_num [rSumSqDev, hmx]
  have hsy : rSumSqDev [(3 : ℝ), 2, 1] = 2 := by norm_num [rSumSqDev, hmy]
  have hsxy : rSumDevProd [(0 : ℝ), 1, 2] [(3 : ℝ), 2, 1] = -2 := by
    norm_num [rSumDevProd, hmx, hmy]
  have hr : linregressR (idxList 3) [(3 : ℝ), 2, 1] = -1 := by
    rw [hx, linregressR, if_neg (by rw [hsx, hsy]; norm_num), hsx, hsy, hsxy,
      Real.mul_self_sqrt (by norm_num : (0 : ℝ) ≤ 2)]
    norm_num
  have hs : linregressSlope (idxList 3) [(3 : ℝ), 2, 1] = -1 := by
    rw [hx, linregressSlope, hsxy, hsx]
    norm_num
  have h1 : trendStrength [(3 : ℝ), 2, 1] = 1 := by
    simp only [trendStrength, lastN, List.length_cons, List.length_nil]
    norm_num [hs, hr]
  have h2 : slopeTimesRSquared [(3 : ℝ), 2, 1] = -1 := by
    simp only [slopeTimesRSquared, lastN, List.length_cons, List.length_nil]
    norm_num [hs, hr]
  exact ⟨h1, h2, by rw [h1, h2]; norm_num⟩

lemma align_nil : ∀ (s : List (Nat × ℝ)), alignSeries s [] = []
  | [] => rfl
  | p :: s => by
      simp only [alignSeries, List.filterMap_cons, lookupKey, Option.map_none']
      exact align_nil s

lemma align_cons_skip : ∀ (s : List (Nat × ℝ)) (c1 : Nat) (cy : ℝ) (t : List (Nat × ℝ)),
    (∀ p ∈ s, p.1 ≠ c1) → alignSeries s ((c1, cy) :: t) = alignSeries s t
  | [], _, _, _, _ => rfl
  | p :: s, c1, cy, t, h => by
      have hp : p.1 ≠ c1 := h p (List.mem_cons_self p s)
      have hrest := align_cons_skip s c1 cy t (fun q hq => h q (List.mem_cons_of_mem p hq))
      simp only [alignSeries, List.filterMap_cons] at hrest ⊢
      rw [show lookupKey p.1 ((c1, cy) :: t) = lookupKey p.1 t from by
        rw [lookupKey, if_neg (fun hc => hp hc.symm)]]
      rw [hrest]

lemma withIdx_keys_ge : ∀ (xs : List ℝ) (k : Nat) (p : Nat × ℝ), p ∈ withIdx k xs → k ≤ p.1
  | [], _, _, h => absurd h (by simp [withIdx])
  | x :: xs, k, p, h => by
      rcases List.mem_cons.mp (by simpa [withIdx] using h) with h1 | h1
      · simp [h1]
      · exact Nat.le_of_succ_le (withIdx_keys_ge xs (k + 1) p h1)

lemma align_withIdx : ∀ (xs ys : List ℝ) (k : Nat),
    alignSeries (withIdx k xs) (withIdx k ys) = List.zip xs ys
  | [], _, _ => rfl
  | x :: xs, [], k => by
      simp only [withIdx, alignSeries, List.filterMap_cons, lookupKey, Option.map_none',
        List.zip_nil_right]
      exact align_nil (withIdx (k + 1) xs)
  | x :: xs, y :: ys, k => by
      simp only [withIdx, alignSeries, List.filterMap_cons]
      rw [show lookupKey k ((k, y) :: withIdx (k + 1) ys) = some y from by
        simp [lookupKey]]
      simp only [Option.map_some']
      rw [List.zip_cons_cons]
      congr 1
      have hskip : alignSeries (withIdx (k + 1) xs) ((k, y) :: withIdx (k + 1) ys) =
          alignSeries (withIdx (k + 1) xs) (withIdx (k + 1) ys) :=
        align_cons_skip (withIdx (k + 1) xs) k y (withIdx (k + 1) ys) (fun p hp => by
          have := withIdx_keys_ge xs (k + 1) p hp
          omega)
      exact hskip.trans (align_withIdx xs ys (k + 1))

/-- Claim C6 counterexample: on close = [1, 2, 3], volume = [10, 5, 6]
the code's `volume[1:].corr(returns)` is the contemporaneous
correlation (volume [5, 6] against returns [1, 1/2]), which is -1,
while the Pearson correlation of the one-day-lagged volume ([10, 5]
against returns [1, 1/2]) is +1: the index-aligned slice introduces no
lag. -/
theorem volume_return_correlation_not_lagged :
    volume_return_correlation [(1 : ℝ), 2, 3] [(10 : ℝ), 5, 6] = some (-1) ∧
    laggedVolumeReturnCorrelation [(1 : ℝ), 2, 3] [(10 : ℝ), 5, 6] = some 1 ∧
    volume_return_correlation [(1 : ℝ), 2, 3] [(10 : ℝ), 5, 6] ≠
      laggedVolumeReturnCorrelation [(1 : ℝ), 2, 3] [(10 : ℝ), 5, 6] := by
  have hpc : pctChangeR [(1 : ℝ), 2, 3] = [1, 1 / 2] := by
    norm_num [pctChangeR]
  have hm1 : rmean [(5 : ℝ), 6] = 11 / 2 := by norm_num [rmean]
  have hm2 : rmean [(1 : ℝ), 1 / 2] = 3 / 4 := by norm_num [rmean]
  have hm3 : rmean [(10 : ℝ), 5] = 15 / 2 := by norm_num [rmean]
  have hs1 : rSumSqDev [(5 : ℝ), 6] = 1 / 2 := by norm_num [rSumSqDev, hm1]
  have hs2 : rSumSqDev [(1 : ℝ), 1 / 2] = 1 / 8 := by norm_num [rSumSqDev, hm2]
  have hs3 : rSumSqDev [(10 : ℝ), 5] = 25 / 2 := by norm_num [rSumSqDev, hm3]
  have hn1 : rSumDevProd [(5 : ℝ), 6] [(1 : ℝ), 1 / 2] = -(1 / 4) := by
    norm_num [rSumDevProd, hm1, hm2]
  have hn2 : rSumDevProd [(10 : ℝ), 5] [(1 : ℝ), 1 / 2] = 5 / 4 := by
    norm_num [rSumDevProd, hm3, hm2]
  have hcorr1 : pandasCorr [(5 : ℝ), 6] [(1 : ℝ), 1 / 2] = some (-1) := by
    rw [pandasCorr, if_neg (by rw [hs1, hs2]; norm_num), hs1, hs2, hn1,
      ← Real.sqrt_mul (by norm_num : (0 : ℝ) ≤ 1 / 2),
      show ((1 : ℝ) / 2 * (1 / 8)) = (1 / 4) ^ 2 by norm_num,
      Real.sqrt_sq (by norm_num : (0 : ℝ) ≤ 1 / 4)]
    norm_num
  have hcorr2 : pandasCorr [(10 : ℝ), 5] [(1 : ℝ), 1 / 2] = some 1 := by
    rw [pandasCorr, if_neg (by rw [hs3, hs2]; norm_num), hs3, hs2, hn2,
      ← Real.sqrt_mul (by norm_num : (0 : ℝ) ≤ 25 / 2),
      show ((25 : ℝ) / 2 * (1 / 8)) = (5 / 4) ^ 2 by norm_num,
      Real.sqrt_sq (by norm_num : (0 : ℝ) ≤ 5 / 4)]
    norm_num
  have halign : alignSeries ((withIdx 0 [(10 : ℝ), 5, 6]).drop 1)
      (withIdx 1 [(1 : ℝ), 1 / 2]) = [(5, 1), (6, 1 / 2)] := by
    simp only [withIdx, List.drop_succ_cons, List.drop_zero, alignSeries,
      List.filterMap_cons, lookupKey]
    norm_num
  have hA : volume_return_correlation [(1 : ℝ), 2, 3] [(10 : ℝ), 5, 6] = some (-1) := by
    rw [volume_return_correlation, hpc, corrAligned, halign]
    simpa using hcorr1
  have hB : laggedVolumeReturnCorrelation [(1 : ℝ), 2, 3] [(10 : ℝ), 5, 6] = some 1 := by
    rw [laggedVolumeReturnCorrelation, hpc,
      show ([(10 : ℝ), 5, 6].dropLast) = [(10 : ℝ), 5] from rfl]
    exact hcorr2
  refine ⟨hA, hB, ?_⟩
  rw [hA, hB]
  intro hcon
  rw [Option.some.injEq] at hcon
  norm_num at hcon

/-- Claim C6 (amended): for equal-length close and volume histories,
the `volume_return_correlation` metric equals the Pearson correlation
of the CONTEMPORANEOUS day-t volume and day-t return over days
1..n-1: because pandas aligns `corr` arguments on the date index and
`volume[1:]` keeps its original labels 1..n-1 — exactly the labels of
the returns series — the slice introduces no one-day lag. -/
theorem volume_return_correlation_contemporaneous (close volume : List ℝ)
    (hlen : volume.length = close.length) :
    volume_return_correlation close volume =
      pandasCorr (volume.drop 1) (pctChangeR close) := by
  cases volume with
  | nil =>
      have hc : close = [] := List.eq_nil_of_length_eq_zero (by simpa using hlen.symm)
      subst hc
      rfl
  | cons v vs =>
      have hdrop : (withIdx 0 (v :: vs)).drop 1 = withIdx 1 vs := rfl
      rw [volume_return_correlation, hdrop, corrAligned,
        align_withIdx vs (pctChangeR close) 1]
      have hlens : vs.length = (pctChangeR close).length := by
        simp only [pctChangeR, List.length_zipWith, List.length_drop]
        simp only [List.length_cons] at hlen
        omega
      rw [List.map_fst_zip _ _ (le_of_eq hlens), List.map_snd_zip _ _ (le_of_eq hlens.symm)]
      rfl

/-- Claim C6 witness: the amended statement at close = [1, 2],
volume = [4, 7]. -/
theorem volume_return_correlation_contemporaneous_witness :
    ([(4 : ℝ), 7].length = [(1 : ℝ), 2].length) ∧
    volume_return_correlation [(1 : ℝ), 2] [(4 : ℝ), 7] =
      pandasCorr ([(4 : ℝ), 7].drop 1) (pctChangeR [(1 : ℝ), 2]) :=
  ⟨rfl, volume_return_correlation_contemporaneous [(1 : ℝ), 2] [(4 : ℝ), 7] rfl⟩

lemma analyze_absent_of_error (fetch : String → Except String Hist) (e s : String)
    (hf : fetch s = Except.error e) : ∀ (symbols : List String),
    lookupKey s (analyze_volume_patterns fetch symbols) = none
  | [] => rfl
  | t :: rest => by
      by_cases hts : t = s
      · subst hts
        simp only [analyze_volume_patterns, hf]
        exact analyze_absent_of_error fetch e t hf rest
      · cases hft : fetch t with
        | error e2 =>
            simp only [analyze_volume_patterns, hft]
            exact analyze_absent_of_error fetch e s hf rest
        | ok h2 =>
            simp only [analyze_volume_patterns, hft]
            by_cases hcase : (h2.rows.isEmpty || !h2.hasVolumeCol) = true
            · rw [if_pos hcase]
              exact analyze_absent_of_error fetch e s hf rest
            · rw [if_neg hcase, lookupKey, if_neg hts]
              exact analyze_absent_of_error fetch e s hf rest

lemma analyze_present_of_ok (fetch : String → Except String Hist) (s : String) (h : Hist)
    (hok : fetch s = Except.ok h) (hne : h.rows ≠ []) (hcol : h.hasVolumeCol = true) :
    ∀ (symbols : List String), s ∈ symbols →
    lookupKey s (analyze_volume_patterns fetch symbols) = some (volMetricsOf h)
  | [], hmem => absurd hmem (by simp)
  | t :: rest, hmem => by
      by_cases hts : t = s
      · subst hts
        simp only [analyze_volume_patterns, hok]
        have hcond : (h.rows.isEmpty || !h.hasVolumeCol) = false := by
          simp [hcol, List.isEmpty_iff, hne]
        rw [if_neg (by simp [hcond]), lookupKey, if_pos rfl]
      · have hmem' : s ∈ rest :=
          (List.mem_cons.mp hmem).resolve_left (fun hc => hts hc.symm)
        cases hft : fetch t with
        | error e2 =>
            simp only [analyze_volume_patterns, hft]
            exact analyze_present_of_ok fetch s h hok hne hcol rest hmem'
        | ok h2 =>
            simp only [analyze_volume_patterns, hft]
            by_cases hcase : (h2.rows.isEmpty || !h2.hasVolumeCol) = true
            · rw [if_pos hcase]
              exact analyze_present_of_ok fetch s h hok hne hcol rest hmem'
            · rw [if_neg hcase, lookupKey, if_neg hts]
              exact analyze_present_of_ok fetch s h hok hne hcol rest hmem'

lemma insight_ignore (volM : List (String × VolRec)) (corrM : List (String × Option ℝ))
    (betaM : List (String × BetaRec)) (volumeM : List (String × VolumeMetrics)) (s : String)
    (hmiss : lookupKey s volumeM = none) :
    insightFor volM corrM betaM volumeM s = insightFor volM corrM betaM [] s := by
  simp only [insightFor, hmiss, lookupKey]

/-- Claim C9 counterexample: under `fetchEmptyOk` the fetch for symA
raises while the fetch for symB succeeds (returning an empty history);
the claim promises that every symbol whose fetch succeeded stays
present, yet the result mapping is empty — symB is dropped by the
`if hist.empty or 'Volume' not in hist.columns: continue` branch. -/
theorem volume_patterns_empty_fetch_counterexample :
    fetchEmptyOk symA = Except.error errNetwork ∧
    fetchEmptyOk symB = Except.ok { rows := [], hasVolumeCol := true } ∧
    analyze_volume_patterns fetchEmptyOk [symA, symB] = [] ∧
    lookupKey symB (analyze_volume_patterns fetchEmptyOk [symA, symB]) = none := by
  have h1 : fetchEmptyOk symA = Except.error errNetwork := by
    rw [fetchEmptyOk, if_pos rfl]
  have h2 : fetchEmptyOk symB = Except.ok { rows := [], hasVolumeCol := true } := by
    rw [fetchEmptyOk, if_neg (by decide)]
  have h3 : analyze_volume_patterns fetchEmptyOk [symA, symB] = [] := by
    simp [analyze_volume_patterns, h1, h2]
  exact ⟨h1, h2, h3, by rw [h3]; rfl⟩

/-- Claim C9 (amended): a symbol whose per-symbol volume-history fetch
raises is caught and is absent from the result mapping; every symbol
whose fetch succeeded WITH A NON-EMPTY HISTORY CARRYING A VOLUME
COLUMN is present with its full metric record (a successful but empty
fetch is also skipped, which the original claim overlooked); and the
insight generation treats a symbol missing from the volume mapping as
contributing no volume signal — its insight string equals the one
computed with an empty volume mapping — and, being a total function,
cannot error. -/
theorem volume_patterns_error_skip
    (fetch : String → Except String Hist) (symbols : List String)
    (sFail sOk eFail : String) (hOk : Hist)
    (hmem : sOk ∈ symbols) (hfail : fetch sFail = Except.error eFail)
    (hok : fetch sOk = Except.ok hOk) (hne : hOk.rows ≠ [])
    (hcol : hOk.hasVolumeCol = true)
    (volM : List (String × VolRec)) (corrM : List (String × Option ℝ))
    (betaM : List (String × BetaRec)) (volumeM : List (String × VolumeMetrics))
    (hmiss : lookupKey sFail volumeM = none) :
    lookupKey sFail (analyze_volume_patterns fetch symbols) = none ∧
    lookupKey sOk (analyze_volume_patterns fetch symbols) = some (volMetricsOf hOk) ∧
    insightFor volM corrM betaM volumeM sFail = insightFor volM corrM betaM [] sFail :=
  ⟨analyze_absent_of_error fetch eFail sFail hfail symbols,
   analyze_present_of_ok fetch sOk hOk hok hne hcol symbols hmem,
   insight_ignore volM corrM betaM volumeM sFail hmiss⟩

/-- Claim C9 witness: under `fetchMixed` (symA raises, others get a
two-day history), symA is absent and symB is present with its full
record; the insight for symA with an empty volume mapping is
unchanged. -/
theorem volume_patterns_error_skip_witness :
    (symB ∈ [symA, symB]) ∧
    (lookupKey symA (analyze_volume_patterns fetchMixed [symA, symB]) = none ∧
     lookupKey symB (analyze_volume_patterns fetchMixed [symA, symB]) =
       some (volMetricsOf histTwoDays) ∧
     insightFor [] [] [] [] symA = insightFor [] [] [] [] symA) :=
  ⟨by simp,
   volume_patterns_error_skip fetchMixed [symA, symB] symA symB errNetwork
     histTwoDays (by simp) (by rw [fetchMixed, if_pos rfl])
     (by rw [fetchMixed, if_neg (by decide)]) (by simp [histTwoDays]) rfl
     [] [] [] [] rfl⟩

end TradeHunter
